import Mathlib

/-
Verification of the PlanetCamera navigation core (og/camera/PlanetCamera.js).

The camera's own code (class PlanetCamera) is embedded faithfully below.
Collaborator code that is not part of the sources at hand (Vec3/LonLat/Lock
primitives, the Ellipsoid, the mercator module and the Camera base class) is
either modelled from the specification (marked in each doc comment) or kept
abstract behind the `Geo` interface, exactly as the specification treats it:
an external collaborator specified only at its interface boundary.

Real-number arithmetic stands in for JavaScript doubles; division by zero
yields 0 in Lean (where JavaScript would produce Infinity/NaN), which is
noted wherever it matters.
-/

namespace Og

noncomputable section

/-- Three-component vector over the reals (og.math.Vec3 data). -/
@[ext]
structure Vec3 where
  x : ℝ
  y : ℝ
  z : ℝ

namespace Vec3

/-- Zero vector (Vec3.ZERO). -/
def zero : Vec3 := ⟨0, 0, 0⟩

/-- World up vector (Vec3.UP). -/
def up : Vec3 := ⟨0, 1, 0⟩

/-- Componentwise sum (Vec3.add / addA). -/
def add (a b : Vec3) : Vec3 := ⟨a.x + b.x, a.y + b.y, a.z + b.z⟩

/-- Componentwise difference (Vec3.sub / subA). -/
def sub (a b : Vec3) : Vec3 := ⟨a.x - b.x, a.y - b.y, a.z - b.z⟩

/-- Scalar multiple (Vec3.scale / scaleTo). -/
def scale (a : Vec3) (k : ℝ) : Vec3 := ⟨a.x * k, a.y * k, a.z * k⟩

/-- Negated copy (Vec3.negateTo). -/
def negate (a : Vec3) : Vec3 := ⟨-a.x, -a.y, -a.z⟩

/-- Dot product (Vec3.dot). -/
def dot (a b : Vec3) : ℝ := a.x * b.x + a.y * b.y + a.z * b.z

/-- Cross product (Vec3.cross). -/
def cross (a b : Vec3) : Vec3 :=
  ⟨a.y * b.z - a.z * b.y, a.z * b.x - a.x * b.z, a.x * b.y - a.y * b.x⟩

/-- Euclidean length (Vec3.length). -/
def length (a : Vec3) : ℝ := Real.sqrt (a.x * a.x + a.y * a.y + a.z * a.z)

/-- Normalized copy (Vec3.normal): the vector scaled by the reciprocal of its
length.  For the zero vector JavaScript produces NaN components; in this real
model 1/0 = 0, so the zero vector is returned. -/
def normal (a : Vec3) : Vec3 := a.scale (1 / a.length)

/-- Modelled from the spec: Vec3.smerp (sources of this method are not among
the files at hand).  Section 4.3 step 2 describes the operation as the linear
blend of the two vectors whose normalization -- performed at the call sites --
gives a direction-only spherical interpolation; at parameter 1 it returns the
first vector, at 0 the second, matching the use in flyCartesian. -/
def smerp (a b : Vec3) (d : ℝ) : Vec3 := add (a.scale d) (b.scale (1 - d))

end Vec3

/-- Geographic coordinate triple (og.LonLat). -/
@[ext]
structure LonLat where
  lon : ℝ
  lat : ℝ
  height : ℝ

/-- Modelled from the spec: mercator.MAX_LAT (og/mercator.js is not among the
files at hand); section 4.2 gives the valid mercator band as plus or minus
85.05113 degrees. -/
def MAX_LAT : ℝ := 85.05113

/-- Modelled from the spec: math.SQRT_HALF (og/math.js is not among the files
at hand), the square root of one half. -/
def SQRT_HALF : ℝ := Real.sqrt (1 / 2)

/-- Modelled from the spec: math.RADIANS (og/math.js is not among the files at
hand), the degree-to-radian factor. -/
def RADIANS : ℝ := Real.pi / 180

/-- JavaScript truthiness choice `a || b` on numbers: `a` when `a` is nonzero,
otherwise `b` (NaN is outside this real-valued model). -/
def jsOr (a b : ℝ) : ℝ := if a = 0 then b else a

/-- One pose record of the flight plan: `{eye, n, u, v}` as stored into
`_framesArr` by flyCartesian. -/
structure Frame where
  eye : Vec3
  n : Vec3
  u : Vec3
  v : Vec3

instance : Inhabited Frame := ⟨⟨Vec3.zero, Vec3.zero, Vec3.zero, Vec3.zero⟩⟩

/-- The three lockable streaming subsystems: planet.layerLock,
planet.terrainLock and planet._normalMapCreator. -/
inductive Subsys
  | layer
  | terrain
  | normalMap
deriving DecidableEq

/-- Observable calls the camera makes on its collaborators: lock/free calls
carry the key identity of the calling camera's private `_keyLock`, and
callback slots are invoked by identity. -/
inductive Ev
  | lockCall (key : ℕ) (s : Subsys)
  | freeCall (key : ℕ) (s : Subsys)
  | invokeComplete (id : ℕ)
  | invokeStart (id : ℕ)
deriving DecidableEq

/-- Interface of the external collaborators (spec section 6): the ellipsoid's
two conversions, the ray/ellipsoid intersection used through
planet.getRayIntersectionEllipsoid, the LonLat.forwardMercator projection and
the quad-tree terrain sampler.  All are parameters of the model, exactly as
the spec treats them (assumed-correct primitives). -/
structure Geo where
  cartesianToLonLat : Vec3 → LonLat
  lonLatToCartesian : LonLat → Vec3
  rayIntersectEllipsoid : Vec3 → Vec3 → Vec3
  forwardMercator : LonLat → LonLat
  getTerrainPoint : Vec3 → Vec3 → ℝ × Vec3

/-- State of one PlanetCamera instance.  Fields mirror the constructor of
PlanetCamera (eye/basis from the Camera base, _lonLat, _lonLatMerc,
_terrainAltitude, _terrainPoint, minAltitude, the flight-plan fields and the
private _keyLock).  The held/updateCount fields record, respectively, whether
this camera's key is currently held in each of the three external locks
(modelled from the spec's lock-token contract) and how many derived-state
recomputations (update calls, each dispatching a viewchange event) have run.
The view/projection matrices live in the external Camera base class and are
not part of any claim, so they are represented only by `updateCount`. -/
structure PlanetCamera where
  eye : Vec3
  u : Vec3
  v : Vec3
  n : Vec3
  lonLat : LonLat
  lonLatMerc : LonLat
  terrainAltitude : ℝ
  terrainPoint : Vec3
  minAltitude : ℝ
  insideSegment : Bool
  framesArr : List Frame
  framesCounter : ℤ
  numFrames : ℕ
  completeCallback : Option ℕ
  flying : Bool
  eyeNorm : Vec3
  slope : ℝ
  keyId : ℕ
  layerHeld : Bool
  terrainHeld : Bool
  normalMapHeld : Bool
  updateCount : ℕ
  viewAngle : ℝ
  aspect : ℝ

/-- updateGeodeticPosition (source lines 152-157): recompute `_lonLat` from
the eye through the ellipsoid inverse projection, and recompute `_lonLatMerc`
only when the latitude lies inside the mercator band. -/
def updateGeodeticPosition (geo : Geo) (st : PlanetCamera) : PlanetCamera :=
  let ll := geo.cartesianToLonLat st.eye
  { st with
    lonLat := ll
    lonLatMerc := if |ll.lat| ≤ MAX_LAT then geo.forwardMercator ll else st.lonLatMerc }

/-- update (source lines 131-150): recompute the derived state.  The matrix
and frustum rebuilds live in the external Camera base class and are recorded
here by the updateCount increment, which also stands for the viewchange
dispatch; the geodetic recompute, eyeNorm and slope are the PlanetCamera part
of the source. -/
def update (geo : Geo) (st : PlanetCamera) : PlanetCamera :=
  let st1 := updateGeodeticPosition geo st
  { st1 with
    eyeNorm := st1.eye.normal
    slope := st1.n.dot st1.eye.normal
    updateCount := st1.updateCount + 1 }

/-- setAltitude (source lines 164-172): move the eye to
`eye.normal() * alt + terrainPoint`, record the altitude and rerun update. -/
def setAltitude (geo : Geo) (alt : ℝ) (st : PlanetCamera) : PlanetCamera :=
  let nn := st.eye.normal
  let t := st.terrainPoint
  let st1 := { st with
    eye := ⟨nn.x * alt + t.x, nn.y * alt + t.y, nn.z * alt + t.z⟩
    terrainAltitude := alt }
  update geo st1

/-- getAltitude (source lines 178-180). -/
def getAltitude (st : PlanetCamera) : ℝ := st.terrainAltitude

/-- stopFlying (source lines 420-430): free the three locks (the free call is
issued unconditionally; on the lock state, modelled from the spec's token
contract, freeing simply removes this camera's claim), then clear the flying
flag, the frames array and the cursor. -/
def stopFlying (st : PlanetCamera) : PlanetCamera × List Ev :=
  ({ st with
      layerHeld := false
      terrainHeld := false
      normalMapHeld := false
      flying := false
      framesArr := []
      framesCounter := -1 },
   [Ev.freeCall st.keyId Subsys.layer,
    Ev.freeCall st.keyId Subsys.terrain,
    Ev.freeCall st.keyId Subsys.normalMap])

/-- Easing parameter of flyCartesian (source lines 370-372): starting from
`d = 1 - i / numFrames`, apply `d = d*d*(3 - 2*d)` and then square. -/
def easeD (numFrames i : ℕ) : ℝ :=
  let d0 := 1 - (i : ℝ) / (numFrames : ℝ)
  let d1 := d0 * d0 * (3 - 2 * d0)
  d1 * d1

/-- ground_a of flyCartesian (source line 341): the start ground point, the
cartesian image of the current geodetic position at height zero. -/
def flyGroundA (geo : Geo) (st : PlanetCamera) : Vec3 :=
  geo.lonLatToCartesian ⟨st.lonLat.lon, st.lonLat.lat, 0⟩

/-- lonlat_b of flyCartesian (source line 345): geodetic image of the target. -/
def flyLonLatB (geo : Geo) (cartesian : Vec3) : LonLat :=
  geo.cartesianToLonLat cartesian

/-- ground_b of flyCartesian (source line 347): the end ground point. -/
def flyGroundB (geo : Geo) (cartesian : Vec3) : Vec3 :=
  geo.lonLatToCartesian ⟨(flyLonLatB geo cartesian).lon, (flyLonLatB geo cartesian).lat, 0⟩

/-- Unnormalized end forward vector `eye_b - look` (source line 349). -/
def flyNbRaw (cartesian look : Vec3) : Vec3 := Vec3.sub cartesian look

/-- n_b of flyCartesian after normalization (source lines 349, 351). -/
def flyNb (cartesian look : Vec3) : Vec3 := (flyNbRaw cartesian look).normal

/-- u_b of flyCartesian (source lines 350, 352): the cross product is taken
with the still-unnormalized forward vector and then normalized. -/
def flyUb (cartesian look upv : Vec3) : Vec3 :=
  (Vec3.cross upv (flyNbRaw cartesian look)).normal

/-- v_b of flyCartesian (source line 353). -/
def flyVb (cartesian look upv : Vec3) : Vec3 :=
  Vec3.cross (flyNb cartesian look) (flyUb cartesian look upv)

/-- anbn of flyCartesian (source lines 355-357): one minus the dot product of
the unit start and end ground directions. -/
def flyAnbn (geo : Geo) (st : PlanetCamera) (cartesian : Vec3) : ℝ :=
  1 - (flyGroundA geo st).normal.dot (flyGroundB geo cartesian).normal

/-- hM_a of flyCartesian (source line 358):
`SQRT_HALF * sqrt(anbn > 0 ? anbn : 0)`. -/
def flyHM (geo : Geo) (st : PlanetCamera) (cartesian : Vec3) : ℝ :=
  SQRT_HALF * Real.sqrt (if 0 < flyAnbn geo st cartesian then flyAnbn geo st cartesian else 0)

/-- max_h of flyCartesian (source lines 360-365): the flight apex height.
`maxHeight` starts at the 6639613 constant and is raised to the larger
endpoint height when that exceeds it. -/
def flyMaxH (geo : Geo) (st : PlanetCamera) (cartesian : Vec3) : ℝ :=
  let currMaxHeight := max st.lonLat.height (flyLonLatB geo cartesian).height
  let maxHeight := if 6639613 < currMaxHeight then currMaxHeight else 6639613
  currMaxHeight + 2.5 * flyHM geo st cartesian * (maxHeight - currMaxHeight)

/-- The blended ground vector of frame i before normalization (source line
375, `ground_a.smerp(ground_b, d)`). -/
def flyBlend (geo : Geo) (st : PlanetCamera) (cartesian : Vec3) (i : ℕ) : Vec3 :=
  Vec3.smerp (flyGroundA geo st) (flyGroundB geo cartesian) (easeD st.numFrames i)

/-- g_i of frame i (source line 375): the blended ground vector normalized,
with no magnitude guard.  When the blend is the zero vector JavaScript
produces a NaN direction here; the real model returns the zero vector. -/
def flyG (geo : Geo) (st : PlanetCamera) (cartesian : Vec3) (i : ℕ) : Vec3 :=
  (flyBlend geo st cartesian i).normal

/-- ground_i of frame i (source line 376): intersection of the ray from the
origin along g_i with the ellipsoid. -/
def flyGroundI (geo : Geo) (st : PlanetCamera) (cartesian : Vec3) (i : ℕ) : Vec3 :=
  geo.rayIntersectEllipsoid Vec3.zero (flyG geo st cartesian i)

/-- height_i of frame i (source lines 377-378): Bernstein blend of the start
height, the apex (twice) and the end height, in the parameter d. -/
def flyHeightI (geo : Geo) (st : PlanetCamera) (cartesian : Vec3) (i : ℕ) : ℝ :=
  let d := easeD st.numFrames i
  let t := 1 - d
  st.lonLat.height * d * d * d + flyMaxH geo st cartesian * 3 * d * d * t +
    flyMaxH geo st cartesian * 3 * d * t * t + (flyLonLatB geo cartesian).height * t * t * t

/-- eye_i of frame i (source line 380). -/
def flyEyeI (geo : Geo) (st : PlanetCamera) (cartesian : Vec3) (i : ℕ) : Vec3 :=
  Vec3.add (flyGroundI geo st cartesian i)
    ((flyG geo st cartesian i).scale (flyHeightI geo st cartesian i))

/-- up_i of frame i (source line 381). -/
def flyUpI (geo : Geo) (st : PlanetCamera) (cartesian look upv : Vec3) (i : ℕ) : Vec3 :=
  Vec3.smerp st.v (flyVb cartesian look upv) (easeD st.numFrames i)

/-- look_i of frame i (source line 382). -/
def flyLookI (geo : Geo) (st : PlanetCamera) (cartesian look upv : Vec3) (i : ℕ) : Vec3 :=
  Vec3.add (flyEyeI geo st cartesian i)
    ((Vec3.smerp st.n (flyNb cartesian look) (easeD st.numFrames i)).negate)

/-- Unnormalized frame forward vector (source line 384). -/
def flyNfRaw (geo : Geo) (st : PlanetCamera) (cartesian look upv : Vec3) (i : ℕ) : Vec3 :=
  Vec3.sub (flyEyeI geo st cartesian i) (flyLookI geo st cartesian look upv i)

/-- Frame i of the plan (source lines 384-395): re-derive the orthonormal
basis from eye/look/up and store the pose record. -/
def flyFrame (geo : Geo) (st : PlanetCamera) (cartesian look upv : Vec3) (i : ℕ) : Frame :=
  let nf := flyNfRaw geo st cartesian look upv i
  let uf := (Vec3.cross (flyUpI geo st cartesian look upv i) nf).normal
  { eye := flyEyeI geo st cartesian i
    n := nf.normal
    u := uf
    v := Vec3.cross nf.normal uf }

/-- The complete flight plan: frames 0 through numFrames (source line 369,
`for (var i = 0; i <= this._numFrames; i++)`). -/
def planFrames (geo : Geo) (st : PlanetCamera) (cartesian look upv : Vec3) : List Frame :=
  (List.range (st.numFrames + 1)).map (flyFrame geo st cartesian look upv)

/-- flyCartesian (source lines 321-400): stop any flight in progress, store
the new completion callback, invoke the start callback, build the plan from
the current state, and arm the cursor at numFrames with the flying flag set.
The JavaScript default-argument handling (`look || Vec3.ZERO` with LonLat
conversion, `up || Vec3.UP`) is resolved by the caller of this model. -/
def flyCartesian (geo : Geo) (cartesian look upv : Vec3)
    (completeCallback startCallback : Option ℕ) (st : PlanetCamera) :
    PlanetCamera × List Ev :=
  let p := stopFlying st
  let st1 := { p.1 with completeCallback := completeCallback }
  let evStart := match startCallback with
    | some s => [Ev.invokeStart s]
    | none => []
  ({ st1 with
      framesArr := planFrames geo st cartesian look upv
      framesCounter := (st.numFrames : ℤ)
      flying := true },
   p.2 ++ evStart)

/-- flyLonLat (source lines 411-414): a zero (falsy) target height is
replaced by the camera's current height before delegating to flyCartesian. -/
def flyLonLat (geo : Geo) (lonlat : LonLat) (look upv : Vec3)
    (completeCallback startCallback : Option ℕ) (st : PlanetCamera) :
    PlanetCamera × List Ev :=
  flyCartesian geo
    (geo.lonLatToCartesian ⟨lonlat.lon, lonlat.lat, jsOr lonlat.height st.lonLat.height⟩)
    look upv completeCallback startCallback st

/-- Modelled from the spec: Camera.set of the external base class (section
4.1 setPose and section 4.3 step 6): store the eye and rebuild the basis as
n = normalize(eye - look), u = normalize(up x n), v = n x u. -/
def camSet (eyev look upv : Vec3) (st : PlanetCamera) : PlanetCamera :=
  let nv := (Vec3.sub eyev look).normal
  let uv := (Vec3.cross upv nv).normal
  { st with eye := eyev, n := nv, u := uv, v := Vec3.cross nv uv }

/-- setLonLat (source lines 189-197): stop flying, overwrite `_lonLat` with
the requested coordinates (zero/falsy height replaced by the current height),
move the eye to their cartesian image, rebuild the pose toward the optional
look target, and refresh.  Camera.refresh of the external base class is
modelled from the spec as a derived-state recompute (update); the free calls
issued by stopFlying are not tracked by this state-only operation. -/
def setLonLat (geo : Geo) (lonlat : LonLat) (lookLonLat : Option LonLat)
    (upv : Option Vec3) (st : PlanetCamera) : PlanetCamera :=
  let st0 := (stopFlying st).1
  let newLL : LonLat := ⟨lonlat.lon, lonlat.lat, jsOr lonlat.height st.lonLat.height⟩
  let st1 := { st0 with lonLat := newLL }
  let newEye := geo.lonLatToCartesian newLL
  let newLook := match lookLonLat with
    | some l => geo.lonLatToCartesian l
    | none => Vec3.zero
  update geo (camSet newEye newLook (upv.getD Vec3.up) st1)

/-- prepareFrame (source lines 487-518).  While flying: issue the three lock
calls, write the pose of frame `numFrames - counter` into the camera, update,
decrement the cursor, and on a negative cursor stop flying and invoke (then
clear) the completion callback.  While idle: refresh the terrain altitude
from the quad-tree collaborator and clamp to the minimum altitude. -/
def prepareFrame (geo : Geo) (st : PlanetCamera) : PlanetCamera × List Ev :=
  if st.flying then
    let c : ℤ := (st.numFrames : ℤ) - st.framesCounter
    let fr := st.framesArr.getD c.toNat default
    let lockEvs := [Ev.lockCall st.keyId Subsys.layer,
                    Ev.lockCall st.keyId Subsys.terrain,
                    Ev.lockCall st.keyId Subsys.normalMap]
    let st1 := { st with
      layerHeld := true
      terrainHeld := true
      normalMapHeld := true
      eye := fr.eye
      u := fr.u
      v := fr.v
      n := fr.n }
    let st2 := update geo st1
    let st3 := { st2 with framesCounter := st2.framesCounter - 1 }
    if st3.framesCounter < 0 then
      let q := stopFlying st3
      match q.1.completeCallback with
      | some cb =>
          ({ q.1 with completeCallback := none },
           lockEvs ++ q.2 ++ [Ev.invokeComplete cb])
      | none => (q.1, lockEvs ++ q.2)
    else
      (st3, lockEvs)
  else
    let st1 := { st with terrainAltitude := st.lonLat.height }
    if st.lonLat.height < 1000000 ∧ st.insideSegment then
      let s := geo.getTerrainPoint st.eye st.terrainPoint
      let st2 := { st1 with terrainAltitude := s.1, terrainPoint := s.2 }
      if s.1 < st.minAltitude then (setAltitude geo st.minAltitude st2, []) else (st2, [])
    else
      (st1, [])

/-- Iterate prepareFrame a given number of ticks, concatenating the emitted
collaborator calls in order. -/
def runPrepare (geo : Geo) : ℕ → PlanetCamera → PlanetCamera × List Ev
  | 0, st => (st, [])
  | k + 1, st =>
      let p := prepareFrame geo st
      let q := runPrepare geo k p.1
      (q.1, p.2 ++ q.2)

/-- A whole default flight: one flyCartesian followed by the numFrames + 1
render ticks that consume the plan to completion. -/
def flyAndRun (geo : Geo) (cartesian look upv : Vec3)
    (completeCallback startCallback : Option ℕ) (st : PlanetCamera) :
    PlanetCamera × List Ev :=
  let p := flyCartesian geo cartesian look upv completeCallback startCallback st
  let q := runPrepare geo (st.numFrames + 1) p.1
  (q.1, p.2 ++ q.2)

/-- Viewable extent, degree bounds (og.Extent as used by getExtentPosition). -/
structure Extent where
  north : ℝ
  south : ℝ
  east : ℝ
  west : ℝ

/-- getExtentPosition (source lines 224-286), including the defensive
recentring: when the bisected corner midpoint has magnitude below 0.000001
the center is recomputed from the bisected extent coordinates. -/
def getExtentPosition (geo : Geo) (st : PlanetCamera) (extent : Extent) (height : ℝ) : Vec3 :=
  let east := if extent.west > extent.east then extent.east + 360 else extent.east
  let west := extent.west
  let north := extent.north
  let south := extent.south
  let northEast := geo.lonLatToCartesian ⟨east, north, 0⟩
  let southEast := geo.lonLatToCartesian ⟨east, south, 0⟩
  let southWest := geo.lonLatToCartesian ⟨west, south, 0⟩
  let northWest := geo.lonLatToCartesian ⟨west, north, 0⟩
  let center0 := Vec3.add ((Vec3.sub northEast southWest).scale 0.5) southWest
  let mag := center0.length
  let center := if mag < 0.000001 then
      geo.lonLatToCartesian ⟨(east + west) * 0.5, (north + south) * 0.5, 0⟩
    else center0
  let nw := Vec3.sub northWest center
  let se := Vec3.sub southEast center
  let ne := Vec3.sub northEast center
  let sw := Vec3.sub southWest center
  let direction := center.normal
  let right := (Vec3.cross direction Vec3.up).normal
  let upv := (Vec3.cross right direction).normal
  let h := max (max |upv.dot nw| |upv.dot se|) (max |upv.dot ne| |upv.dot sw|)
  let w := max (max |right.dot nw| |right.dot se|) (max |right.dot ne| |right.dot sw|)
  let tanPhi := Real.tan (st.viewAngle * RADIANS * 0.5)
  let tanTheta := st.aspect * tanPhi
  let d := max (w / tanTheta) (h / tanPhi)
  center.normal.scale (mag + d + jsOr height 0)

/-- Count of lock calls for one subsystem in an event list. -/
def countLock (evs : List Ev) (s : Subsys) : ℕ :=
  (evs.filter fun e => match e with
    | Ev.lockCall _ s2 => decide (s2 = s)
    | _ => false).length

/-- Count of free calls for one subsystem in an event list. -/
def countFree (evs : List Ev) (s : Subsys) : ℕ :=
  (evs.filter fun e => match e with
    | Ev.freeCall _ s2 => decide (s2 = s)
    | _ => false).length

/-- The completion-callback invocations contained in an event list. -/
def completions (evs : List Ev) : List Ev :=
  evs.filter fun e => match e with
    | Ev.invokeComplete _ => true
    | _ => false

/-- Key carried by a lock or free call, none for callback invocations. -/
def lockFreeKey : Ev → Option ℕ
  | Ev.lockCall k _ => some k
  | Ev.freeCall k _ => some k
  | _ => none

/-- Effective releases of one lock claim across one transition: 1 when a held
claim became free, 0 otherwise. -/
def effRel (before after : Bool) : ℕ :=
  if before = true ∧ after = false then 1 else 0

/-- The apex-height formula with the first term exactly as the claim words it:
`max(maxAltitudeFloor, max(height_a, height_b))`, the floor raised to an
endpoint height when that exceeds the 6639613 default.  Written only for
comparison against the source's flyMaxH. -/
def claimApexHeight (ha hb hM : ℝ) : ℝ :=
  let cm := max ha hb
  let fl := if 6639613 < cm then cm else (6639613 : ℝ)
  max fl cm + 2.5 * hM * (fl - cm)

/-- Modelled from the spec: on a spherical ellipsoid the local surface normal
at a surface point is the unit radial direction of that point (glossary entry
for the terrain contact point together with the section 4.2 setAltitude
contract). -/
def sphereSurfaceNormal (p : Vec3) : Vec3 := p.normal

/-- Concrete flight target used by the witnesses. -/
def cartS : Vec3 := ⟨0, 4, 0⟩

/-- Concrete look target used by the witnesses. -/
def lookS : Vec3 := Vec3.zero

/-- Concrete end-up vector used by the witnesses. -/
def upS : Vec3 := ⟨0, 0, 1⟩

/-- Concrete collaborator instance: a sphere of radius 3 presented through
the abstract interface, tabulated on the two geodetic points the witness
flight touches (longitudes 0 and 90 at latitude 0). -/
def geoS : Geo where
  cartesianToLonLat := fun _ => ⟨90, 0, 1⟩
  lonLatToCartesian := fun ll => ⟨3 - ll.lon / 30, ll.lon / 30, 0⟩
  rayIntersectEllipsoid := fun _ dir => dir.scale 3
  forwardMercator := fun ll => ll
  getTerrainPoint := fun _ tp => (0, tp)

/-- Concrete camera at height 1 over longitude/latitude 0 of the radius-3
sphere, with an orthonormal right-handed basis. -/
def camS : PlanetCamera where
  eye := ⟨4, 0, 0⟩
  u := ⟨0, 1, 0⟩
  v := ⟨0, 0, 1⟩
  n := ⟨1, 0, 0⟩
  lonLat := ⟨0, 0, 1⟩
  lonLatMerc := ⟨0, 0, 0⟩
  terrainAltitude := 0
  terrainPoint := Vec3.zero
  minAltitude := 50
  insideSegment := false
  framesArr := []
  framesCounter := 0
  numFrames := 50
  completeCallback := none
  flying := false
  eyeNorm := Vec3.zero
  slope := 0
  keyId := 7
  layerHeld := false
  terrainHeld := false
  normalMapHeld := false
  updateCount := 0
  viewAngle := 35
  aspect := 1

/-- Camera state whose eye direction and terrain contact point disagree: the
eye sits on the y axis while the recorded terrain point is on the x axis. -/
def camS6 : PlanetCamera :=
  { camS with eye := ⟨0, 2, 0⟩, terrainPoint := ⟨1, 0, 0⟩ }

/-- Collaborator instance for the apex-height comparison: both endpoint
heights are 0 and the two ground points are antipodal on a radius-3 sphere
(longitudes 0 and 7 tabulated to opposite x-axis points). -/
def geo7 : Geo :=
  { geoS with
    cartesianToLonLat := fun _ => ⟨7, 0, 0⟩
    lonLatToCartesian := fun ll => ⟨3 - ll.lon * (6 / 7), 0, 0⟩ }

/-- Camera at height 0 for the apex-height comparison. -/
def cam7 : PlanetCamera := { camS with lonLat := ⟨0, 0, 0⟩ }

/-- Flight target for the apex-height comparison. -/
def cart7 : Vec3 := ⟨9, 9, 9⟩

/-- Collaborator instance realizing midpoint cancellation: the start ground
point is (1,0,0) and the end ground point is tuned so that at frame 18 of the
default plan the blended ground vector is exactly zero. -/
def geo8 : Geo :=
  { geoS with
    cartesianToLonLat := fun _ => ⟨9, 0, 0⟩
    lonLatToCartesian := fun ll =>
      ⟨1 - ll.lon * ((1 + easeD 50 18 / (1 - easeD 50 18)) / 9), 0, 0⟩ }

/-- Camera at height 0 for the midpoint-cancellation flight. -/
def cam8 : PlanetCamera := { camS with lonLat := ⟨0, 0, 0⟩ }

/-- Flight target for the midpoint-cancellation flight. -/
def cart8 : Vec3 := ⟨5, 5, 5⟩

/-- Collaborator whose inverse projection lands at latitude 10, inside the
mercator band. -/
def geoIn : Geo := { geoS with cartesianToLonLat := fun _ => ⟨1, 10, 5⟩ }

/-- Collaborator whose inverse projection lands at latitude 89, outside the
mercator band. -/
def geoOut : Geo := { geoS with cartesianToLonLat := fun _ => ⟨1, 89, 5⟩ }

end

namespace Vec3

lemma smerp_one (a b : Vec3) : smerp a b 1 = a := by
  ext <;> simp [smerp, add, scale]

lemma smerp_zero (a b : Vec3) : smerp a b 0 = b := by
  ext <;> simp [smerp, add, scale]

lemma length_nonneg (a : Vec3) : 0 ≤ a.length := Real.sqrt_nonneg _

lemma length_eq_zero_iff (a : Vec3) : a.length = 0 ↔ a = zero := by
  constructor
  · intro h
    have hs : a.x * a.x + a.y * a.y + a.z * a.z ≤ 0 := by
      by_contra hpos
      push_neg at hpos
      have := Real.sqrt_pos.2 hpos
      rw [length] at h
      linarith
    have hx : a.x = 0 := by nlinarith [sq_nonneg a.x, sq_nonneg a.y, sq_nonneg a.z]
    have hy : a.y = 0 := by nlinarith [sq_nonneg a.x, sq_nonneg a.y, sq_nonneg a.z]
    have hz : a.z = 0 := by nlinarith [sq_nonneg a.x, sq_nonneg a.y, sq_nonneg a.z]
    ext <;> simp [zero, hx, hy, hz]
  · intro h
    subst h
    simp [length, zero]

lemma mul_self_length (a : Vec3) : a.length * a.length = a.x * a.x + a.y * a.y + a.z * a.z :=
  Real.mul_self_sqrt
    (add_nonneg (add_nonneg (mul_self_nonneg _) (mul_self_nonneg _)) (mul_self_nonneg _))

lemma dot_self_eq (a : Vec3) : a.dot a = a.length * a.length := by
  rw [mul_self_length]; rfl

lemma length_scale (a : Vec3) (k : ℝ) : (a.scale k).length = |k| * a.length := by
  simp only [length, scale]
  rw [show a.x * k * (a.x * k) + a.y * k * (a.y * k) + a.z * k * (a.z * k)
      = k * k * (a.x * a.x + a.y * a.y + a.z * a.z) by ring]
  rw [Real.sqrt_mul (mul_self_nonneg k), Real.sqrt_mul_self_eq_abs]

lemma scale_one (a : Vec3) : a.scale 1 = a := by ext <;> simp [scale]

lemma scale_zero (a : Vec3) : a.scale 0 = zero := by ext <;> simp [scale, zero]

lemma normal_length (a : Vec3) (h : a.length ≠ 0) : a.normal.length = 1 := by
  have hpos : 0 < a.length := lt_of_le_of_ne (length_nonneg a) (Ne.symm h)
  rw [normal, length_scale, abs_of_pos (one_div_pos.2 hpos)]
  field_simp

lemma normal_of_length_one (a : Vec3) (h : a.length = 1) : a.normal = a := by
  rw [normal, h]
  norm_num
  exact scale_one a

lemma cross_cross (a b c : Vec3) :
    cross (cross a b) c = sub (b.scale (a.dot c)) (a.scale (b.dot c)) := by
  ext <;> (simp [cross, sub, scale, dot]; ring)

lemma cross_dot_right (a b : Vec3) : (cross a b).dot b = 0 := by
  simp [cross, dot]; ring

lemma dot_scale_left (a b : Vec3) (k : ℝ) : (a.scale k).dot b = k * a.dot b := by
  simp [dot, scale]; ring

lemma dot_scale_right (a b : Vec3) (k : ℝ) : a.dot (b.scale k) = k * a.dot b := by
  simp [dot, scale]; ring

lemma normal_dot_normal_self (a : Vec3) (h : a.length ≠ 0) : a.normal.dot a.normal = 1 := by
  rw [dot_self_eq, normal_length a h, mul_one]

lemma sub_add_negate (e v : Vec3) : sub e (add e v.negate) = v := by
  ext <;> (simp only [sub, add, negate]; ring)

lemma sub_zero_right (a : Vec3) : sub a zero = a := by
  ext <;> simp [sub, zero]

lemma length_axis_x (a : ℝ) : (Vec3.mk a 0 0).length = |a| := by
  rw [length]
  simp only [mul_zero, add_zero]
  exact Real.sqrt_mul_self_eq_abs a

lemma length_axis_y (a : ℝ) : (Vec3.mk 0 a 0).length = |a| := by
  rw [length]
  simp only [mul_zero, zero_mul, add_zero, zero_add]
  exact Real.sqrt_mul_self_eq_abs a

lemma normal_axis_x {a : ℝ} (h : 0 < a) : (Vec3.mk a 0 0).normal = ⟨1, 0, 0⟩ := by
  have hne : a ≠ 0 := ne_of_gt h
  rw [normal, length_axis_x, abs_of_pos h]
  ext <;> simp [scale]
  field_simp

lemma normal_axis_x_neg {a : ℝ} (h : a < 0) : (Vec3.mk a 0 0).normal = ⟨-1, 0, 0⟩ := by
  have hne : a ≠ 0 := ne_of_lt h
  rw [normal, length_axis_x, abs_of_neg h]
  ext <;> simp [scale]
  rw [inv_neg, mul_neg, mul_inv_cancel₀ hne]

lemma normal_axis_y {a : ℝ} (h : 0 < a) : (Vec3.mk 0 a 0).normal = ⟨0, 1, 0⟩ := by
  have hne : a ≠ 0 := ne_of_gt h
  rw [normal, length_axis_y, abs_of_pos h]
  ext <;> simp [scale]
  field_simp

end Vec3

@[simp] lemma updateGeodeticPosition_eye (geo : Geo) (st : PlanetCamera) :
    (updateGeodeticPosition geo st).eye = st.eye := rfl

@[simp] lemma updateGeodeticPosition_lonLat (geo : Geo) (st : PlanetCamera) :
    (updateGeodeticPosition geo st).lonLat = geo.cartesianToLonLat st.eye := rfl

@[simp] lemma update_eye (geo : Geo) (st : PlanetCamera) : (update geo st).eye = st.eye := rfl

@[simp] lemma update_lonLat (geo : Geo) (st : PlanetCamera) :
    (update geo st).lonLat = geo.cartesianToLonLat st.eye := rfl

@[simp] lemma update_flying (geo : Geo) (st : PlanetCamera) :
    (update geo st).flying = st.flying := rfl

@[simp] lemma update_framesCounter (geo : Geo) (st : PlanetCamera) :
    (update geo st).framesCounter = st.framesCounter := rfl

@[simp] lemma update_framesArr (geo : Geo) (st : PlanetCamera) :
    (update geo st).framesArr = st.framesArr := rfl

@[simp] lemma update_numFrames (geo : Geo) (st : PlanetCamera) :
    (update geo st).numFrames = st.numFrames := rfl

@[simp] lemma update_completeCallback (geo : Geo) (st : PlanetCamera) :
    (update geo st).completeCallback = st.completeCallback := rfl

@[simp] lemma update_keyId (geo : Geo) (st : PlanetCamera) :
    (update geo st).keyId = st.keyId := rfl

@[simp] lemma update_terrainAltitude (geo : Geo) (st : PlanetCamera) :
    (update geo st).terrainAltitude = st.terrainAltitude := rfl

@[simp] lemma update_updateCount (geo : Geo) (st : PlanetCamera) :
    (update geo st).updateCount = st.updateCount + 1 := rfl

@[simp] lemma update_layerHeld (geo : Geo) (st : PlanetCamera) :
    (update geo st).layerHeld = st.layerHeld := rfl

@[simp] lemma update_terrainHeld (geo : Geo) (st : PlanetCamera) :
    (update geo st).terrainHeld = st.terrainHeld := rfl

@[simp] lemma update_normalMapHeld (geo : Geo) (st : PlanetCamera) :
    (update geo st).normalMapHeld = st.normalMapHeld := rfl

lemma easeD_zero (n : ℕ) : easeD n 0 = 1 := by
  norm_num [easeD]

lemma easeD_last {n : ℕ} (h : n ≠ 0) : easeD n n = 0 := by
  have hd : ((n : ℝ)) / (n : ℝ) = 1 := div_self (Nat.cast_ne_zero.2 h)
  norm_num [easeD, hd]

lemma countLock_append (a b : List Ev) (s : Subsys) :
    countLock (a ++ b) s = countLock a s + countLock b s := by
  simp [countLock, List.filter_append]

lemma countFree_append (a b : List Ev) (s : Subsys) :
    countFree (a ++ b) s = countFree a s + countFree b s := by
  simp [countFree, List.filter_append]

lemma completions_append (a b : List Ev) :
    completions (a ++ b) = completions a ++ completions b := by
  simp [completions, List.filter_append]

lemma runPrepare_zero (geo : Geo) (st : PlanetCamera) : runPrepare geo 0 st = (st, []) := rfl

lemma runPrepare_succ (geo : Geo) (k : ℕ) (st : PlanetCamera) :
    runPrepare geo (k + 1) st =
      ((runPrepare geo k (prepareFrame geo st).1).1,
       (prepareFrame geo st).2 ++ (runPrepare geo k (prepareFrame geo st).1).2) := rfl

lemma prepareFrame_fly_pos (geo : Geo) (st : PlanetCamera) (hf : st.flying = true)
    (hc : 0 < st.framesCounter) :
    (prepareFrame geo st).1.flying = true ∧
    (prepareFrame geo st).1.framesCounter = st.framesCounter - 1 ∧
    (prepareFrame geo st).1.completeCallback = st.completeCallback ∧
    (prepareFrame geo st).1.keyId = st.keyId ∧
    (prepareFrame geo st).1.numFrames = st.numFrames ∧
    (prepareFrame geo st).1.framesArr = st.framesArr ∧
    (prepareFrame geo st).2 = [Ev.lockCall st.keyId Subsys.layer,
      Ev.lockCall st.keyId Subsys.terrain, Ev.lockCall st.keyId Subsys.normalMap] := by
  have hneg : ¬ (st.framesCounter - 1 < 0) := by omega
  simp [prepareFrame, hf, hneg]

lemma prepareFrame_fly_last (geo : Geo) (st : PlanetCamera) (hf : st.flying = true)
    (hc : st.framesCounter = 0) :
    (prepareFrame geo st).1.flying = false ∧
    (prepareFrame geo st).1.framesCounter = -1 ∧
    (prepareFrame geo st).1.framesArr = [] ∧
    (prepareFrame geo st).1.completeCallback = none ∧
    (prepareFrame geo st).1.layerHeld = false ∧
    (prepareFrame geo st).1.terrainHeld = false ∧
    (prepareFrame geo st).1.normalMapHeld = false ∧
    (prepareFrame geo st).2 =
      [Ev.lockCall st.keyId Subsys.layer, Ev.lockCall st.keyId Subsys.terrain,
       Ev.lockCall st.keyId Subsys.normalMap, Ev.freeCall st.keyId Subsys.layer,
       Ev.freeCall st.keyId Subsys.terrain, Ev.freeCall st.keyId Subsys.normalMap] ++
      (match st.completeCallback with
       | some cb => [Ev.invokeComplete cb]
       | none => []) := by
  have hneg : st.framesCounter - 1 < 0 := by omega
  cases hcb : st.completeCallback <;>
    simp [prepareFrame, hf, hneg, hcb, stopFlying]

lemma runPrepare_flight (geo : Geo) :
    ∀ (k : ℕ) (st : PlanetCamera), st.flying = true → st.framesCounter = (k : ℤ) →
    (runPrepare geo (k + 1) st).1.flying = false ∧
    (runPrepare geo (k + 1) st).1.framesCounter = -1 ∧
    (runPrepare geo (k + 1) st).1.framesArr = [] ∧
    (runPrepare geo (k + 1) st).1.completeCallback = none ∧
    (runPrepare geo (k + 1) st).1.layerHeld = false ∧
    (runPrepare geo (k + 1) st).1.terrainHeld = false ∧
    (runPrepare geo (k + 1) st).1.normalMapHeld = false ∧
    (∀ s, countLock (runPrepare geo (k + 1) st).2 s = k + 1) ∧
    (∀ s, countFree (runPrepare geo (k + 1) st).2 s = 1) ∧
    completions (runPrepare geo (k + 1) st).2 =
      (match st.completeCallback with
       | some cb => [Ev.invokeComplete cb]
       | none => []) ∧
    (∀ e ∈ (runPrepare geo (k + 1) st).2,
      lockFreeKey e = some st.keyId ∨ lockFreeKey e = none) := by
  intro k
  induction k with
  | zero =>
      intro st hf hc
      have hc0 : st.framesCounter = 0 := by exact_mod_cast hc
      obtain ⟨h1, h2, h3, h4, h5, h6, h7, hev⟩ := prepareFrame_fly_last geo st hf hc0
      rw [runPrepare_succ, runPrepare_zero]
      refine ⟨h1, h2, h3, h4, h5, h6, h7, ?_, ?_, ?_, ?_⟩
      · intro s
        rw [List.append_nil, hev]
        cases hcb : st.completeCallback <;> cases s <;>
          simp [countLock, countLock_append]
      · intro s
        rw [List.append_nil, hev]
        cases hcb : st.completeCallback <;> cases s <;>
          simp [countFree, countFree_append]
      · rw [List.append_nil, hev]
        cases hcb : st.completeCallback <;> simp [completions, completions_append]
      · intro e he
        rw [List.append_nil, hev] at he
        rcases List.mem_append.1 he with h | h
        · simp at h
          rcases h with h | h | h | h | h | h <;> simp [h, lockFreeKey]
        · cases hcb : st.completeCallback
          · rw [hcb] at h
            simp at h
          · rw [hcb] at h
            simp at h
            simp [h, lockFreeKey]
  | succ n ih =>
      intro st hf hc
      have hpos : 0 < st.framesCounter := by omega
      obtain ⟨p1, p2, p3, p4, p5, p6, pev⟩ := prepareFrame_fly_pos geo st hf hpos
      have hc1 : (prepareFrame geo st).1.framesCounter = (n : ℤ) := by
        rw [p2, hc]; push_cast; ring
      obtain ⟨t1, t2, t3, t4, t5, t6, t7, t8, t9, t10, t11⟩ :=
        ih (prepareFrame geo st).1 p1 hc1
      rw [runPrepare_succ]
      refine ⟨t1, t2, t3, t4, t5, t6, t7, ?_, ?_, ?_, ?_⟩
      · intro s
        rw [countLock_append, pev, t8 s]
        cases s <;> simp [countLock] <;> omega
      · intro s
        rw [countFree_append, pev, t9 s]
        cases s <;> simp [countFree]
      · rw [completions_append, pev, t10, p3]
        simp [completions]
      · intro e he
        rcases List.mem_append.1 he with h | h
        · rw [pev] at h
          simp at h
          rcases h with h | h | h <;> simp [h, lockFreeKey]
        · have := t11 e h
          rw [p4] at this
          exact this

lemma flyCartesian_fields (geo : Geo) (cart look upv : Vec3) (ccb scb : Option ℕ)
    (st : PlanetCamera) :
    (flyCartesian geo cart look upv ccb scb st).1.flying = true ∧
    (flyCartesian geo cart look upv ccb scb st).1.framesCounter = (st.numFrames : ℤ) ∧
    (flyCartesian geo cart look upv ccb scb st).1.numFrames = st.numFrames ∧
    (flyCartesian geo cart look upv ccb scb st).1.keyId = st.keyId ∧
    (flyCartesian geo cart look upv ccb scb st).1.completeCallback = ccb ∧
    (flyCartesian geo cart look upv ccb scb st).1.framesArr = planFrames geo st cart look upv ∧
    (flyCartesian geo cart look upv ccb scb st).1.lonLat = st.lonLat :=
  ⟨rfl, rfl, rfl, rfl, rfl, rfl, rfl⟩

lemma flyCartesian_events (geo : Geo) (cart look upv : Vec3) (ccb scb : Option ℕ)
    (st : PlanetCamera) :
    (flyCartesian geo cart look upv ccb scb st).2 =
      [Ev.freeCall st.keyId Subsys.layer, Ev.freeCall st.keyId Subsys.terrain,
       Ev.freeCall st.keyId Subsys.normalMap] ++
      (match scb with
       | some s => [Ev.invokeStart s]
       | none => []) := by
  cases scb <;> rfl

lemma flyAndRun_props (geo : Geo) (cart look upv : Vec3) (ccb scb : Option ℕ)
    (st : PlanetCamera) :
    (∀ s, countLock (flyAndRun geo cart look upv ccb scb st).2 s = st.numFrames + 1) ∧
    (∀ s, countFree (flyAndRun geo cart look upv ccb scb st).2 s = 2) ∧
    (flyAndRun geo cart look upv ccb scb st).1.flying = false ∧
    (flyAndRun geo cart look upv ccb scb st).1.layerHeld = false ∧
    (flyAndRun geo cart look upv ccb scb st).1.terrainHeld = false ∧
    (flyAndRun geo cart look upv ccb scb st).1.normalMapHeld = false ∧
    (flyAndRun geo cart look upv ccb scb st).1.completeCallback = none ∧
    completions (flyAndRun geo cart look upv ccb scb st).2 =
      (match ccb with
       | some cb => [Ev.invokeComplete cb]
       | none => []) ∧
    (∀ e ∈ (flyAndRun geo cart look upv ccb scb st).2,
      lockFreeKey e = some st.keyId ∨ lockFreeKey e = none) := by
  obtain ⟨f1, f2, f3, f4, f5, f6, f7⟩ := flyCartesian_fields geo cart look upv ccb scb st
  have hrun := runPrepare_flight geo st.numFrames
    (flyCartesian geo cart look upv ccb scb st).1 f1 (by rw [f2])
  rw [f4, f5] at hrun
  obtain ⟨t1, t2, t3, t4, t5, t6, t7, t8, t9, t10, t11⟩ := hrun
  have hsplit : (flyAndRun geo cart look upv ccb scb st).2 =
      (flyCartesian geo cart look upv ccb scb st).2 ++
      (runPrepare geo (st.numFrames + 1) (flyCartesian geo cart look upv ccb scb st).1).2 := rfl
  have hfst : (flyAndRun geo cart look upv ccb scb st).1 =
      (runPrepare geo (st.numFrames + 1) (flyCartesian geo cart look upv ccb scb st).1).1 := rfl
  refine ⟨?_, ?_, ?_, ?_, ?_, ?_, ?_, ?_, ?_⟩
  · intro s
    rw [hsplit, countLock_append, flyCartesian_events, t8 s]
    cases scb <;> cases s <;> simp [countLock]
  · intro s
    rw [hsplit, countFree_append, flyCartesian_events, t9 s]
    cases scb <;> cases s <;> simp [countFree]
  · rw [hfst]; exact t1
  · rw [hfst]; exact t5
  · rw [hfst]; exact t6
  · rw [hfst]; exact t7
  · rw [hfst]; exact t4
  · rw [hsplit, completions_append, flyCartesian_events, t10]
    cases scb <;> simp [completions]
  · intro e he
    rw [hsplit] at he
    rcases List.mem_append.1 he with h | h
    · rw [flyCartesian_events] at h
      rcases List.mem_append.1 h with h2 | h2
      · simp at h2
        rcases h2 with h2 | h2 | h2 <;> simp [h2, lockFreeKey]
      · cases hscb : scb
        · rw [hscb] at h2
          simp at h2
        · rw [hscb] at h2
          simp at h2
          simp [h2, lockFreeKey]
    · exact t11 e h

lemma planFrames_length (geo : Geo) (st : PlanetCamera) (cart look upv : Vec3) :
    (planFrames geo st cart look upv).length = st.numFrames + 1 := by
  simp [planFrames]

lemma planFrames_getD (geo : Geo) (st : PlanetCamera) (cart look upv : Vec3) (i : ℕ)
    (h : i < st.numFrames + 1) :
    (planFrames geo st cart look upv).getD i default = flyFrame geo st cart look upv i := by
  rw [planFrames, List.getD_eq_getElem?_getD, List.getElem?_map, List.getElem?_range h]
  rfl

lemma prepareFrame_eye_fly (geo : Geo) (st : PlanetCamera) (hf : st.flying = true) :
    (prepareFrame geo st).1.eye =
      (st.framesArr.getD ((st.numFrames : ℤ) - st.framesCounter).toNat default).eye := by
  by_cases hneg : st.framesCounter - 1 < 0
  · cases hcb : st.completeCallback <;>
      simp [prepareFrame, hf, hneg, hcb, stopFlying]
  · simp [prepareFrame, hf, hneg]


lemma Vec3.normal_zero : (Vec3.zero).normal = Vec3.zero := by
  ext <;> simp [Vec3.normal, Vec3.zero, Vec3.scale]

lemma doubleSmooth_nonneg {a : ℝ} (ha : 0 ≤ a) (ha1 : a ≤ 1) :
    0 ≤ a * a * (3 - 2 * a) := by nlinarith

lemma doubleSmooth_mono {a b : ℝ} (ha : 0 ≤ a) (hab : a ≤ b) (hb : b ≤ 1) :
    a * a * (3 - 2 * a) ≤ b * b * (3 - 2 * b) := by
  nlinarith [mul_nonneg (sub_nonneg.2 hab) (mul_nonneg ha (sub_nonneg.2 (hab.trans hb))),
    mul_nonneg (sub_nonneg.2 hab) (mul_nonneg (ha.trans hab) (sub_nonneg.2 hb)),
    sq_nonneg (a - b), sq_nonneg (a + b - 1),
    mul_nonneg (sub_nonneg.2 hab) (sub_nonneg.2 hb)]

/-- C4: stopFlying is idempotent and safe in any state: a second call in a row
yields exactly the same IDLE state (flying flag false, frames array empty,
cursor cleared to -1) as the first, every lock claim is effectively released
at most once per subsystem across the two calls, and neither call ever
invokes a completion callback. -/
theorem c4_stopFlying_idempotent (st : PlanetCamera) :
    (stopFlying (stopFlying st).1).1 = (stopFlying st).1 ∧
    (stopFlying st).1.flying = false ∧
    (stopFlying st).1.framesArr = [] ∧
    (stopFlying st).1.framesCounter = -1 ∧
    (stopFlying st).1.layerHeld = false ∧
    (stopFlying st).1.terrainHeld = false ∧
    (stopFlying st).1.normalMapHeld = false ∧
    effRel st.layerHeld (stopFlying st).1.layerHeld +
      effRel (stopFlying st).1.layerHeld (stopFlying (stopFlying st).1).1.layerHeld ≤ 1 ∧
    effRel st.terrainHeld (stopFlying st).1.terrainHeld +
      effRel (stopFlying st).1.terrainHeld (stopFlying (stopFlying st).1).1.terrainHeld ≤ 1 ∧
    effRel st.normalMapHeld (stopFlying st).1.normalMapHeld +
      effRel (stopFlying st).1.normalMapHeld
        (stopFlying (stopFlying st).1).1.normalMapHeld ≤ 1 ∧
    completions (stopFlying st).2 = [] ∧
    completions (stopFlying (stopFlying st).1).2 = [] := by
  refine ⟨rfl, rfl, rfl, rfl, rfl, rfl, rfl, ?_, ?_, ?_, rfl, rfl⟩ <;>
    simp [effRel, stopFlying] <;> split <;> norm_num

/-- C5: updateGeodeticPosition always recomputes lon/lat/height from the eye
through the ellipsoid inverse projection; it computes the mercator form
exactly when the latitude magnitude is at most MAX_LAT, leaves the mercator
field unchanged (stale) outside that band, and never touches the eye. -/
theorem c5_updateGeodeticPosition (geo : Geo) (st : PlanetCamera) :
    (updateGeodeticPosition geo st).lonLat = geo.cartesianToLonLat st.eye ∧
    (|(geo.cartesianToLonLat st.eye).lat| ≤ MAX_LAT →
      (updateGeodeticPosition geo st).lonLatMerc =
        geo.forwardMercator (geo.cartesianToLonLat st.eye)) ∧
    (¬ |(geo.cartesianToLonLat st.eye).lat| ≤ MAX_LAT →
      (updateGeodeticPosition geo st).lonLatMerc = st.lonLatMerc) ∧
    (updateGeodeticPosition geo st).eye = st.eye := by
  refine ⟨rfl, ?_, ?_, rfl⟩ <;> intro h <;> simp [updateGeodeticPosition, h]

/-- C5 witness: at latitude 10 the mercator form is recomputed, at latitude
89 the mercator field keeps its previous (stale) value. -/
theorem c5_witness :
    (updateGeodeticPosition geoIn camS).lonLatMerc =
      geoIn.forwardMercator (geoIn.cartesianToLonLat camS.eye) ∧
    (updateGeodeticPosition geoOut camS).lonLatMerc = camS.lonLatMerc := by
  constructor
  · exact (c5_updateGeodeticPosition geoIn camS).2.1 (by norm_num [geoIn, geoS, MAX_LAT])
  · exact (c5_updateGeodeticPosition geoOut camS).2.2.1 (by norm_num [geoOut, geoS, MAX_LAT])

/-- C6 (amended): setAltitude repositions the eye to exactly
terrainPoint + n * alt where n is the unit radial direction of the current
eye position (which coincides with the surface normal at the terrain contact
point only when that point lies radially beneath the eye on a spherical
ellipsoid), records alt as the terrain altitude so that getAltitude
subsequently returns alt, and triggers a full derived-state recompute that
also refreshes the geodetic position from the new eye. -/
theorem c6_setAltitude (geo : Geo) (alt : ℝ) (st : PlanetCamera) :
    (setAltitude geo alt st).eye = Vec3.add st.terrainPoint (st.eye.normal.scale alt) ∧
    (setAltitude geo alt st).terrainAltitude = alt ∧
    getAltitude (setAltitude geo alt st) = alt ∧
    (setAltitude geo alt st).updateCount = st.updateCount + 1 ∧
    (setAltitude geo alt st).lonLat =
      geo.cartesianToLonLat (Vec3.add st.terrainPoint (st.eye.normal.scale alt)) := by
  have heye : (setAltitude geo alt st).eye = Vec3.add st.terrainPoint (st.eye.normal.scale alt) := by
    show Vec3.mk (st.eye.normal.x * alt + st.terrainPoint.x)
        (st.eye.normal.y * alt + st.terrainPoint.y)
        (st.eye.normal.z * alt + st.terrainPoint.z) = _
    ext <;> (simp [Vec3.add, Vec3.scale]; ring)
  refine ⟨heye, rfl, rfl, rfl, ?_⟩
  rw [show (setAltitude geo alt st).lonLat
      = geo.cartesianToLonLat (setAltitude geo alt st).eye from rfl, heye]

/-- C6 counterexample: with the eye on the y axis and the recorded terrain
contact point on the x axis of a spherical ellipsoid, setAltitude(5) puts the
eye at (1,5,0), not at terrainPoint + surfaceNormal(terrainPoint)*5 = (6,0,0):
the source moves the eye along the radial direction of the eye, not along the
surface normal at the terrain contact point. -/
theorem c6_counterexample :
    (setAltitude geoS 5 camS6).eye ≠
      Vec3.add camS6.terrainPoint ((sphereSurfaceNormal camS6.terrainPoint).scale 5) := by
  have he : camS6.eye = ⟨0, 2, 0⟩ := rfl
  have ht : camS6.terrainPoint = ⟨1, 0, 0⟩ := rfl
  have hnn : camS6.eye.normal = ⟨0, 1, 0⟩ := by
    rw [he]; exact Vec3.normal_axis_y (by norm_num)
  have htn : sphereSurfaceNormal camS6.terrainPoint = ⟨1, 0, 0⟩ := by
    rw [sphereSurfaceNormal, ht]; exact Vec3.normal_axis_x (by norm_num)
  intro h
  have hL : (setAltitude geoS 5 camS6).eye.x = 1 := by
    show camS6.eye.normal.x * 5 + camS6.terrainPoint.x = 1
    rw [hnn, ht]; norm_num
  have hR : (Vec3.add camS6.terrainPoint
      ((sphereSurfaceNormal camS6.terrainPoint).scale 5)).x = 6 := by
    rw [htn, ht]; simp [Vec3.add, Vec3.scale]; norm_num
  have hx := congrArg Vec3.x h
  rw [hL, hR] at hx
  norm_num at hx

/-- C9: the per-frame easing parameter of the planner equals
(x^2 (3 - 2x))^2 with x = 1 - i/numFrames, the sequence d(0), ...,
d(numFrames) is monotonically decreasing, and d(0) = 1, d(numFrames) = 0. -/
theorem c9_easing (N i j : ℕ) (hN : 0 < N) :
    easeD N i = ((1 - (i : ℝ) / N) ^ 2 * (3 - 2 * (1 - (i : ℝ) / N))) ^ 2 ∧
    (i ≤ j → j ≤ N → easeD N j ≤ easeD N i) ∧
    easeD N 0 = 1 ∧ easeD N N = 0 := by
  refine ⟨by simp only [easeD]; ring, ?_, easeD_zero N, easeD_last hN.ne'⟩
  intro hij hjN
  have hNpos : (0 : ℝ) < (N : ℝ) := by exact_mod_cast hN
  have ha : 0 ≤ 1 - (j : ℝ) / N := by
    have : (j : ℝ) / N ≤ 1 := (div_le_one hNpos).2 (by exact_mod_cast hjN)
    linarith
  have hab : 1 - (j : ℝ) / N ≤ 1 - (i : ℝ) / N := by
    have : (i : ℝ) / N ≤ (j : ℝ) / N := by
      apply div_le_div_of_nonneg_right ?_ hNpos.le
      exact_mod_cast hij
    linarith
  have hb : 1 - (i : ℝ) / N ≤ 1 := by
    have : (0 : ℝ) ≤ (i : ℝ) / N := by positivity
    linarith
  have hmono := doubleSmooth_mono ha hab hb
  have hn1 := doubleSmooth_nonneg ha (by linarith)
  show (let d0 := 1 - (j : ℝ) / N; let d1 := d0 * d0 * (3 - 2 * d0); d1 * d1) ≤
    (let d0 := 1 - (i : ℝ) / N; let d1 := d0 * d0 * (3 - 2 * d0); d1 * d1)
  simp only
  nlinarith [hmono, hn1]

/-- C9 witness: the easing facts instantiated at numFrames 50 with sample
indices 10 and 20. -/
theorem c9_witness :
    (0 : ℕ) < 50 ∧
    (easeD 50 10 = ((1 - (10 : ℝ) / 50) ^ 2 * (3 - 2 * (1 - (10 : ℝ) / 50))) ^ 2 ∧
     ((10 : ℕ) ≤ 20 → (20 : ℕ) ≤ 50 → easeD 50 20 ≤ easeD 50 10) ∧
     easeD 50 0 = 1 ∧ easeD 50 50 = 0) :=
  ⟨by norm_num, c9_easing 50 10 20 (by norm_num)⟩

/-- C10: a zero (falsy) requested height at the geodetic entry points is
replaced by the camera's current height: flyLonLat delegates to flyCartesian
with the target at (lon, lat, current height), and setLonLat moves the eye to
the cartesian image of (lon, lat, current height). -/
theorem c10_height_falsy (geo : Geo) (st : PlanetCamera) (ll : LonLat)
    (look upv : Vec3) (ccb scb : Option ℕ) (lookLL : Option LonLat) (upO : Option Vec3)
    (h : ll.height = 0) :
    flyLonLat geo ll look upv ccb scb st =
      flyCartesian geo (geo.lonLatToCartesian ⟨ll.lon, ll.lat, st.lonLat.height⟩)
        look upv ccb scb st ∧
    (setLonLat geo ll lookLL upO st).eye =
      geo.lonLatToCartesian ⟨ll.lon, ll.lat, st.lonLat.height⟩ := by
  constructor
  · rw [flyLonLat, h]
    simp [jsOr]
  · show (update geo _).eye = _
    rw [update_eye]
    show geo.lonLatToCartesian ⟨ll.lon, ll.lat, jsOr ll.height st.lonLat.height⟩ = _
    rw [h]
    simp [jsOr]

/-- C10 witness: flying to and placing at lon 25 / lat 30 with requested
height 0 targets the current camera height. -/
theorem c10_witness :
    (LonLat.mk 25 30 0).height = 0 ∧
    (flyLonLat geoS ⟨25, 30, 0⟩ lookS upS none none camS =
      flyCartesian geoS (geoS.lonLatToCartesian ⟨25, 30, camS.lonLat.height⟩)
        lookS upS none none camS ∧
     (setLonLat geoS ⟨25, 30, 0⟩ none none camS).eye =
      geoS.lonLatToCartesian ⟨25, 30, camS.lonLat.height⟩) :=
  ⟨rfl, c10_height_falsy geoS camS ⟨25, 30, 0⟩ lookS upS none none none none rfl⟩

/-- C2 (amended): over a whole default flight the executor issues one lock
call per subsystem on every flying tick (numFrames + 1 calls in total per
subsystem), and one free call per subsystem at each stopFlying -- once when
flyCartesian cancels at flight start and once at flight end -- all keyed by
the camera's single private token; the number of lock calls (numFrames + 1)
therefore exceeds the number of free calls (2), but every claim is released
when the flight ends. -/
theorem c2_lock_free_calls (geo : Geo) (cart look upv : Vec3) (ccb scb : Option ℕ)
    (st : PlanetCamera) (s : Subsys) :
    countLock (flyAndRun geo cart look upv ccb scb st).2 s = st.numFrames + 1 ∧
    countFree (flyAndRun geo cart look upv ccb scb st).2 s = 2 ∧
    (flyAndRun geo cart look upv ccb scb st).1.layerHeld = false ∧
    (flyAndRun geo cart look upv ccb scb st).1.terrainHeld = false ∧
    (flyAndRun geo cart look upv ccb scb st).1.normalMapHeld = false ∧
    (∀ e ∈ (flyAndRun geo cart look upv ccb scb st).2,
      lockFreeKey e = some st.keyId ∨ lockFreeKey e = none) := by
  obtain ⟨a1, a2, a3, a4, a5, a6, a7, a8, a9⟩ := flyAndRun_props geo cart look upv ccb scb st
  exact ⟨a1 s, a2 s, a4, a5, a6, a9⟩

/-- C2 witness: the lock/free bookkeeping of the whole concrete default
flight, for the terrain subsystem. -/
theorem c2_witness :
    countLock (flyAndRun geoS cartS lookS upS none none camS).2 Subsys.terrain = 51 ∧
    countFree (flyAndRun geoS cartS lookS upS none none camS).2 Subsys.terrain = 2 ∧
    (flyAndRun geoS cartS lookS upS none none camS).1.layerHeld = false ∧
    (flyAndRun geoS cartS lookS upS none none camS).1.terrainHeld = false ∧
    (flyAndRun geoS cartS lookS upS none none camS).1.normalMapHeld = false ∧
    (∀ e ∈ (flyAndRun geoS cartS lookS upS none none camS).2,
      lockFreeKey e = some camS.keyId ∨ lockFreeKey e = none) := by
  have h := c2_lock_free_calls geoS cartS lookS upS none none camS Subsys.terrain
  exact ⟨h.1, h.2.1, h.2.2.1, h.2.2.2.1, h.2.2.2.2.1, h.2.2.2.2.2⟩

/-- C2 counterexample: in the concrete default flight the layer subsystem
receives 51 lock calls but only 2 free calls over the whole flight, so the
number of lock calls does not equal the number of free calls, and the lock is
not acquired exactly once at flight start. -/
theorem c2_counterexample :
    countLock (flyAndRun geoS cartS lookS upS none none camS).2 Subsys.layer = 51 ∧
    countFree (flyAndRun geoS cartS lookS upS none none camS).2 Subsys.layer = 2 ∧
    countLock (flyAndRun geoS cartS lookS upS none none camS).2 Subsys.layer ≠
      countFree (flyAndRun geoS cartS lookS upS none none camS).2 Subsys.layer := by
  obtain ⟨a1, a2, a3, a4, a5, a6, a7, a8, a9⟩ := flyAndRun_props geoS cartS lookS upS none none camS
  have h1 : countLock (flyAndRun geoS cartS lookS upS none none camS).2 Subsys.layer = 51 :=
    a1 Subsys.layer
  have h2 : countFree (flyAndRun geoS cartS lookS upS none none camS).2 Subsys.layer = 2 :=
    a2 Subsys.layer
  refine ⟨h1, h2, ?_⟩
  rw [h1, h2]
  norm_num

/-- C3: the completion callback is invoked exactly once, synchronously, on
the tick whose cursor decrement goes negative, and is then cleared; stopFlying
never invokes it (interruption is silent); prepareFrame on a non-final tick
invokes nothing and keeps the stored callback; a (re-entrant) flyCartesian
silently overwrites the stored callback with the new flight callback and
invokes no completion; and the event trace of a whole flight with a callback
contains exactly one completion invocation. -/
theorem c3_completion_callback (geo : Geo) (st : PlanetCamera) (cb : ℕ)
    (cart look upv : Vec3) (ccb scb : Option ℕ) :
    (st.flying = true → st.framesCounter = 0 → st.completeCallback = some cb →
      completions (prepareFrame geo st).2 = [Ev.invokeComplete cb] ∧
      (prepareFrame geo st).1.completeCallback = none ∧
      (prepareFrame geo st).1.flying = false) ∧
    completions (stopFlying st).2 = [] ∧
    (st.flying = true → 0 < st.framesCounter →
      completions (prepareFrame geo st).2 = [] ∧
      (prepareFrame geo st).1.completeCallback = st.completeCallback) ∧
    ((flyCartesian geo cart look upv ccb scb st).1.completeCallback = ccb ∧
      completions (flyCartesian geo cart look upv ccb scb st).2 = []) ∧
    completions (flyAndRun geo cart look upv (some cb) scb st).2 = [Ev.invokeComplete cb] := by
  refine ⟨?_, rfl, ?_, ⟨rfl, ?_⟩, ?_⟩
  · intro hf hc hcb
    obtain ⟨h1, h2, h3, h4, h5, h6, h7, hev⟩ := prepareFrame_fly_last geo st hf hc
    refine ⟨?_, h4, h1⟩
    rw [hev, hcb, completions_append]
    simp [completions]
  · intro hf hc
    obtain ⟨p1, p2, p3, p4, p5, p6, pev⟩ := prepareFrame_fly_pos geo st hf hc
    exact ⟨by rw [pev]; rfl, p3⟩
  · rw [flyCartesian_events]
    cases scb <;> simp [completions]
  · exact (flyAndRun_props geo cart look upv (some cb) scb st).2.2.2.2.2.2.2.1

/-- C3 witness: the callback bookkeeping instantiated on the concrete camera
and flight, with callback identity 3. -/
theorem c3_witness :
    ((camS.flying = true → camS.framesCounter = 0 → camS.completeCallback = some 3 →
      completions (prepareFrame geoS camS).2 = [Ev.invokeComplete 3] ∧
      (prepareFrame geoS camS).1.completeCallback = none ∧
      (prepareFrame geoS camS).1.flying = false) ∧
    completions (stopFlying camS).2 = [] ∧
    (camS.flying = true → 0 < camS.framesCounter →
      completions (prepareFrame geoS camS).2 = [] ∧
      (prepareFrame geoS camS).1.completeCallback = camS.completeCallback) ∧
    ((flyCartesian geoS cartS lookS upS (some 9) none camS).1.completeCallback = some 9 ∧
      completions (flyCartesian geoS cartS lookS upS (some 9) none camS).2 = []) ∧
    completions (flyAndRun geoS cartS lookS upS (some 3) none camS).2 =
      [Ev.invokeComplete 3]) :=
  c3_completion_callback geoS camS 3 cartS lookS upS (some 9) none

/-- C7 (amended): the planner's apex height equals
max(h_a, h_b) + 2.5 * hM * (F - max(h_a, h_b)) with F = max(6639613,
max(h_a, h_b)) -- the first addend is the larger endpoint height, not the
raised floor F as the claim words it -- where the bulge factor satisfies
hM = sqrt(max(1 - dot(dir_a, dir_b), 0) / 2) over the unit ground directions;
when the two unit ground directions coincide the bulge factor vanishes and
the apex degenerates to the larger endpoint height (no arc). -/
theorem c7_apex_height (geo : Geo) (st : PlanetCamera) (cart : Vec3) :
    flyMaxH geo st cart =
      max st.lonLat.height (flyLonLatB geo cart).height +
        2.5 * flyHM geo st cart *
          (max 6639613 (max st.lonLat.height (flyLonLatB geo cart).height) -
            max st.lonLat.height (flyLonLatB geo cart).height) ∧
    flyHM geo st cart = Real.sqrt (max (flyAnbn geo st cart) 0 / 2) ∧
    ((flyGroundA geo st).normal = (flyGroundB geo cart).normal →
      (flyGroundA geo st).normal.length = 1 →
      flyMaxH geo st cart = max st.lonLat.height (flyLonLatB geo cart).height) := by
  have hfloor : (if 6639613 < max st.lonLat.height (flyLonLatB geo cart).height
      then max st.lonLat.height (flyLonLatB geo cart).height else (6639613 : ℝ)) =
      max 6639613 (max st.lonLat.height (flyLonLatB geo cart).height) := by
    rcases le_or_lt (max st.lonLat.height (flyLonLatB geo cart).height) 6639613 with h | h
    · rw [if_neg (not_lt.2 h), max_eq_left h]
    · rw [if_pos h, max_eq_right h.le]
  have hm : flyHM geo st cart = Real.sqrt (max (flyAnbn geo st cart) 0 / 2) := by
    have hif : (if 0 < flyAnbn geo st cart then flyAnbn geo st cart else (0 : ℝ)) =
        max (flyAnbn geo st cart) 0 := by
      rcases lt_or_le 0 (flyAnbn geo st cart) with h | h
      · rw [if_pos h, max_eq_left h.le]
      · rw [if_neg (not_lt.2 h), max_eq_right h]
    rw [flyHM, hif, SQRT_HALF, ← Real.sqrt_mul (by norm_num : (0 : ℝ) ≤ 1 / 2)]
    congr 1
    ring
  refine ⟨?_, hm, ?_⟩
  · simp only [flyMaxH]
    rw [hfloor]
  · intro hdir hlen
    have hdot : (flyGroundA geo st).normal.dot (flyGroundB geo cart).normal = 1 := by
      rw [← hdir, Vec3.dot_self_eq, hlen]
      norm_num
    have hanbn : flyAnbn geo st cart = 0 := by
      rw [flyAnbn, hdot]
      ring
    have hhm0 : flyHM geo st cart = 0 := by
      rw [hm, hanbn]
      norm_num
    simp only [flyMaxH]
    rw [hhm0]
    ring

/-- C7 witness: the amended apex-height facts instantiated on the concrete
antipodal flight. -/
theorem c7_witness :
    (flyMaxH geo7 cam7 cart7 =
      max cam7.lonLat.height (flyLonLatB geo7 cart7).height +
        2.5 * flyHM geo7 cam7 cart7 *
          (max 6639613 (max cam7.lonLat.height (flyLonLatB geo7 cart7).height) -
            max cam7.lonLat.height (flyLonLatB geo7 cart7).height) ∧
    flyHM geo7 cam7 cart7 = Real.sqrt (max (flyAnbn geo7 cam7 cart7) 0 / 2) ∧
    ((flyGroundA geo7 cam7).normal = (flyGroundB geo7 cart7).normal →
      (flyGroundA geo7 cam7).normal.length = 1 →
      flyMaxH geo7 cam7 cart7 =
        max cam7.lonLat.height (flyLonLatB geo7 cart7).height)) :=
  c7_apex_height geo7 cam7 cart7

/-- C7 counterexample: with both endpoint heights 0 and exactly antipodal
unit ground directions (bulge factor 1), the source computes the apex as
0 + 2.5 * 1 * 6639613 = 16599032.5, while the formula as the claim words it
gives max(6639613, 0) + 2.5 * 1 * 6639613 = 23238645.5. -/
theorem c7_counterexample :
    flyMaxH geo7 cam7 cart7 ≠
      claimApexHeight cam7.lonLat.height (flyLonLatB geo7 cart7).height
        (flyHM geo7 cam7 cart7) := by
  have hha : cam7.lonLat.height = 0 := rfl
  have hhb : (flyLonLatB geo7 cart7).height = 0 := rfl
  have hga : flyGroundA geo7 cam7 = ⟨3, 0, 0⟩ := by
    show geo7.lonLatToCartesian ⟨cam7.lonLat.lon, cam7.lonLat.lat, 0⟩ = _
    show (⟨3 - cam7.lonLat.lon * (6 / 7), 0, 0⟩ : Vec3) = _
    have : cam7.lonLat.lon = 0 := rfl
    rw [this]
    norm_num
  have hgb : flyGroundB geo7 cart7 = ⟨-3, 0, 0⟩ := by
    show geo7.lonLatToCartesian ⟨(flyLonLatB geo7 cart7).lon, (flyLonLatB geo7 cart7).lat, 0⟩ = _
    show (⟨3 - (flyLonLatB geo7 cart7).lon * (6 / 7), 0, 0⟩ : Vec3) = _
    have : (flyLonLatB geo7 cart7).lon = 7 := rfl
    rw [this]
    norm_num
  have hna : (flyGroundA geo7 cam7).normal = ⟨1, 0, 0⟩ := by
    rw [hga]
    exact Vec3.normal_axis_x (by norm_num)
  have hnb : (flyGroundB geo7 cart7).normal = ⟨-1, 0, 0⟩ := by
    rw [hgb]
    exact Vec3.normal_axis_x_neg (by norm_num)
  have hanbn : flyAnbn geo7 cam7 cart7 = 2 := by
    rw [flyAnbn, hna, hnb]
    simp [Vec3.dot]
    norm_num
  have hhm : flyHM geo7 cam7 cart7 = 1 := by
    rw [flyHM, hanbn, if_pos (by norm_num : (0 : ℝ) < 2), SQRT_HALF,
      ← Real.sqrt_mul (by norm_num : (0 : ℝ) ≤ 1 / 2)]
    rw [show (1 / 2 : ℝ) * 2 = 1 by norm_num, Real.sqrt_one]
  have hL : flyMaxH geo7 cam7 cart7 = 16599032.5 := by
    simp only [flyMaxH]
    rw [hha, hhb, hhm]
    norm_num
  have hR : claimApexHeight cam7.lonLat.height (flyLonLatB geo7 cart7).height
      (flyHM geo7 cam7 cart7) = 23238645.5 := by
    simp only [claimApexHeight]
    rw [hha, hhb, hhm]
    norm_num
  rw [hL, hR]
  norm_num

/-- C8: at the concrete near-antipodal flight the blended ground vector of
frame 18 of the default plan is exactly the zero vector -- its magnitude 0 is
below the 0.000001 threshold that getExtentPosition's defensive recentring
uses -- yet the planner performs no magnitude check and no fallback: the
frame direction is the normalization of that zero blend (NaN components in
JavaScript; the zero vector in this real model), and the degenerate direction
propagates into the frame eye, which collapses to the zero vector. -/
theorem c8_no_fallback :
    flyBlend geo8 cam8 cart8 18 = Vec3.zero ∧
    (flyBlend geo8 cam8 cart8 18).length < 0.000001 ∧
    flyG geo8 cam8 cart8 18 = Vec3.zero ∧
    flyEyeI geo8 cam8 cart8 18 = Vec3.zero := by
  have hga : flyGroundA geo8 cam8 = ⟨1, 0, 0⟩ := by
    show geo8.lonLatToCartesian ⟨cam8.lonLat.lon, cam8.lonLat.lat, 0⟩ = _
    show (⟨1 - cam8.lonLat.lon * ((1 + easeD 50 18 / (1 - easeD 50 18)) / 9), 0, 0⟩ : Vec3) = _
    have h0 : cam8.lonLat.lon = 0 := rfl
    rw [h0]
    norm_num
  have hd : easeD 50 18 = 121176064 / 244140625 := by
    norm_num [easeD]
  have hgb : flyGroundB geo8 cart8 = ⟨-(121176064 / 122964561), 0, 0⟩ := by
    show geo8.lonLatToCartesian ⟨(flyLonLatB geo8 cart8).lon, (flyLonLatB geo8 cart8).lat, 0⟩ = _
    show (⟨1 - (flyLonLatB geo8 cart8).lon * ((1 + easeD 50 18 / (1 - easeD 50 18)) / 9), 0, 0⟩ : Vec3) = _
    have h9 : (flyLonLatB geo8 cart8).lon = 9 := rfl
    rw [h9, hd]
    norm_num
  have hnum : cam8.numFrames = 50 := rfl
  have hblend : flyBlend geo8 cam8 cart8 18 = Vec3.zero := by
    rw [flyBlend, hga, hgb, hnum, hd]
    ext <;> simp [Vec3.smerp, Vec3.add, Vec3.scale, Vec3.zero] <;> norm_num
  have hG : flyG geo8 cam8 cart8 18 = Vec3.zero := by
    rw [flyG, hblend, Vec3.normal_zero]
  refine ⟨hblend, ?_, hG, ?_⟩
  · rw [hblend]
    rw [show (Vec3.zero).length = 0 from (Vec3.length_eq_zero_iff _).2 rfl]
    norm_num
  · rw [flyEyeI, flyGroundI, hG]
    show Vec3.add (Vec3.zero.scale 3) (Vec3.zero.scale (flyHeightI geo8 cam8 cart8 18)) = Vec3.zero
    ext <;> simp [Vec3.add, Vec3.scale, Vec3.zero]

lemma geoS_groundA : flyGroundA geoS camS = ⟨3, 0, 0⟩ := by
  show (⟨3 - camS.lonLat.lon / 30, camS.lonLat.lon / 30, 0⟩ : Vec3) = _
  rw [show camS.lonLat.lon = 0 from rfl]
  norm_num

lemma geoS_groundA_normal : (flyGroundA geoS camS).normal = ⟨1, 0, 0⟩ := by
  rw [geoS_groundA]
  exact Vec3.normal_axis_x (by norm_num)

lemma geoS_groundB : flyGroundB geoS cartS = ⟨0, 3, 0⟩ := by
  show (⟨3 - (flyLonLatB geoS cartS).lon / 30, (flyLonLatB geoS cartS).lon / 30, 0⟩ : Vec3) = _
  rw [show (flyLonLatB geoS cartS).lon = 90 from rfl]
  norm_num

lemma geoS_groundB_normal : (flyGroundB geoS cartS).normal = ⟨0, 1, 0⟩ := by
  rw [geoS_groundB]
  exact Vec3.normal_axis_y (by norm_num)

/-- C1 (amended): for a consistent ellipsoid interface (the center ray along
each unit ground direction returns that ground point, and each endpoint eye
decomposes as its ground point plus its height along the radial direction)
and a well-formed start basis and end request, flyCartesian builds a plan
with exactly numFrames + 1 frames whose frame 0 pose equals the START pose
and whose last frame pose equals the requested END pose; prepareFrame
consumes the plan forward (the cursor is armed at numFrames, so the first
consumed index is 0 and the first tick writes the start pose back into the
camera), hence the displayed sequence runs from the start pose to the end
pose. -/
theorem c1_plan_endpoints (geo : Geo) (st : PlanetCamera) (cartesian look upv : Vec3)
    (ccb scb : Option ℕ)
    (hN : st.numFrames ≠ 0)
    (hrayA : geo.rayIntersectEllipsoid Vec3.zero (flyGroundA geo st).normal = flyGroundA geo st)
    (hrayB : geo.rayIntersectEllipsoid Vec3.zero (flyGroundB geo cartesian).normal =
      flyGroundB geo cartesian)
    (heyeA : Vec3.add (flyGroundA geo st)
      ((flyGroundA geo st).normal.scale st.lonLat.height) = st.eye)
    (heyeB : Vec3.add (flyGroundB geo cartesian)
      ((flyGroundB geo cartesian).normal.scale (flyLonLatB geo cartesian).height) = cartesian)
    (hn1 : st.n.length = 1)
    (hu1 : st.u.length = 1)
    (hvn : Vec3.cross st.v st.n = st.u)
    (hnu : Vec3.cross st.n st.u = st.v)
    (hnb : (flyNbRaw cartesian look).length ≠ 0)
    (hub : (Vec3.cross upv (flyNbRaw cartesian look)).length ≠ 0) :
    (planFrames geo st cartesian look upv).length = st.numFrames + 1 ∧
    flyFrame geo st cartesian look upv 0 = ⟨st.eye, st.n, st.u, st.v⟩ ∧
    flyFrame geo st cartesian look upv st.numFrames =
      ⟨cartesian, flyNb cartesian look, flyUb cartesian look upv, flyVb cartesian look upv⟩ ∧
    (flyCartesian geo cartesian look upv ccb scb st).1.framesCounter = (st.numFrames : ℤ) ∧
    (prepareFrame geo (flyCartesian geo cartesian look upv ccb scb st).1).1.eye = st.eye := by
  have hd0 : easeD st.numFrames 0 = 1 := easeD_zero _
  have hdN : easeD st.numFrames st.numFrames = 0 := easeD_last hN
  have hblend0 : flyBlend geo st cartesian 0 = flyGroundA geo st := by
    rw [flyBlend, hd0, Vec3.smerp_one]
  have hG0 : flyG geo st cartesian 0 = (flyGroundA geo st).normal := by
    rw [flyG, hblend0]
  have hground0 : flyGroundI geo st cartesian 0 = flyGroundA geo st := by
    rw [flyGroundI, hG0, hrayA]
  have hh0 : flyHeightI geo st cartesian 0 = st.lonLat.height := by
    simp only [flyHeightI, hd0]
    ring
  have heye0 : flyEyeI geo st cartesian 0 = st.eye := by
    rw [flyEyeI, hground0, hG0, hh0, heyeA]
  have hup0 : flyUpI geo st cartesian look upv 0 = st.v := by
    rw [flyUpI, hd0, Vec3.smerp_one]
  have hlook0 : flyLookI geo st cartesian look upv 0 = Vec3.add st.eye st.n.negate := by
    rw [flyLookI, hd0, Vec3.smerp_one, heye0]
  have hnf0 : flyNfRaw geo st cartesian look upv 0 = st.n := by
    rw [flyNfRaw, heye0, hlook0, Vec3.sub_add_negate]
  have hf0 : flyFrame geo st cartesian look upv 0 = ⟨st.eye, st.n, st.u, st.v⟩ := by
    simp only [flyFrame, hnf0, hup0, heye0]
    rw [Vec3.normal_of_length_one st.n hn1, hvn, Vec3.normal_of_length_one st.u hu1, hnu]
  have hblendN : flyBlend geo st cartesian st.numFrames = flyGroundB geo cartesian := by
    rw [flyBlend, hdN, Vec3.smerp_zero]
  have hGN : flyG geo st cartesian st.numFrames = (flyGroundB geo cartesian).normal := by
    rw [flyG, hblendN]
  have hgroundN : flyGroundI geo st cartesian st.numFrames = flyGroundB geo cartesian := by
    rw [flyGroundI, hGN, hrayB]
  have hhN : flyHeightI geo st cartesian st.numFrames = (flyLonLatB geo cartesian).height := by
    simp only [flyHeightI, hdN]
    ring
  have heyeN : flyEyeI geo st cartesian st.numFrames = cartesian := by
    rw [flyEyeI, hgroundN, hGN, hhN, heyeB]
  have hupN : flyUpI geo st cartesian look upv st.numFrames = flyVb cartesian look upv := by
    rw [flyUpI, hdN, Vec3.smerp_zero]
  have hlookN : flyLookI geo st cartesian look upv st.numFrames =
      Vec3.add cartesian (flyNb cartesian look).negate := by
    rw [flyLookI, hdN, Vec3.smerp_zero, heyeN]
  have hnfN : flyNfRaw geo st cartesian look upv st.numFrames = flyNb cartesian look := by
    rw [flyNfRaw, heyeN, hlookN, Vec3.sub_add_negate]
  have hnb1 : (flyNb cartesian look).length = 1 := Vec3.normal_length _ hnb
  have hub1 : (flyUb cartesian look upv).length = 1 := Vec3.normal_length _ hub
  have hdotbn : (flyUb cartesian look upv).dot (flyNb cartesian look) = 0 := by
    rw [flyUb, flyNb, Vec3.normal, Vec3.normal, Vec3.dot_scale_left, Vec3.dot_scale_right,
      Vec3.cross_dot_right]
    ring
  have hnbdot : (flyNb cartesian look).dot (flyNb cartesian look) = 1 := by
    rw [Vec3.dot_self_eq, hnb1]
    norm_num
  have hcr : Vec3.cross (flyVb cartesian look upv) (flyNb cartesian look) =
      flyUb cartesian look upv := by
    rw [flyVb, Vec3.cross_cross, hnbdot, hdotbn, Vec3.scale_one, Vec3.scale_zero,
      Vec3.sub_zero_right]
  have hfN : flyFrame geo st cartesian look upv st.numFrames =
      ⟨cartesian, flyNb cartesian look, flyUb cartesian look upv, flyVb cartesian look upv⟩ := by
    simp only [flyFrame, hnfN, hupN, heyeN]
    rw [Vec3.normal_of_length_one _ hnb1, hcr, Vec3.normal_of_length_one _ hub1, flyVb]
  obtain ⟨f1, f2, f3, f4, f5, f6, f7⟩ := flyCartesian_fields geo cartesian look upv ccb scb st
  have hprep : (prepareFrame geo (flyCartesian geo cartesian look upv ccb scb st).1).1.eye =
      st.eye := by
    rw [prepareFrame_eye_fly geo _ f1, f3, f2, f6,
      show ((st.numFrames : ℤ) - (st.numFrames : ℤ)).toNat = 0 by omega,
      planFrames_getD geo st cartesian look upv 0 (Nat.succ_pos _), hf0]
  exact ⟨planFrames_length geo st cartesian look upv, hf0, hfN, f2, hprep⟩

/-- C1 counterexample: in the concrete flight from eye (4,0,0) (ground point
(3,0,0), height 1) to the target (0,4,0), frame 0 carries the START eye
(4,0,0), not the end eye: the plan is not stored end-first, and it is
consumed forward, not in reverse. -/
theorem c1_counterexample : (flyFrame geoS camS cartS lookS upS 0).eye ≠ cartS := by
  have hd0 : easeD camS.numFrames 0 = 1 := easeD_zero _
  have hblend : flyBlend geoS camS cartS 0 = ⟨3, 0, 0⟩ := by
    rw [flyBlend, hd0, Vec3.smerp_one, geoS_groundA]
  have hG : flyG geoS camS cartS 0 = ⟨1, 0, 0⟩ := by
    rw [flyG, hblend]
    exact Vec3.normal_axis_x (by norm_num)
  have hground : flyGroundI geoS camS cartS 0 = ⟨3, 0, 0⟩ := by
    rw [flyGroundI, hG]
    show (Vec3.mk 1 0 0).scale 3 = _
    ext <;> simp [Vec3.scale]
  have hh : flyHeightI geoS camS cartS 0 = 1 := by
    simp only [flyHeightI, hd0]
    rw [show camS.lonLat.height = 1 from rfl]
    ring
  have heye : (flyFrame geoS camS cartS lookS upS 0).eye = ⟨4, 0, 0⟩ := by
    show flyEyeI geoS camS cartS 0 = _
    rw [flyEyeI, hground, hG, hh]
    ext <;> norm_num [Vec3.add, Vec3.scale]
  intro h
  rw [heye] at h
  have hx : (4 : ℝ) = cartS.x := congrArg Vec3.x h
  rw [show cartS.x = 0 from rfl] at hx
  norm_num at hx

/-- C1 witness: the amended plan-endpoint facts hold on the concrete sphere
flight, every hypothesis being discharged by evaluation. -/
theorem c1_witness :
    (planFrames geoS camS cartS lookS upS).length = camS.numFrames + 1 ∧
    flyFrame geoS camS cartS lookS upS 0 = ⟨camS.eye, camS.n, camS.u, camS.v⟩ ∧
    flyFrame geoS camS cartS lookS upS camS.numFrames =
      ⟨cartS, flyNb cartS lookS, flyUb cartS lookS upS, flyVb cartS lookS upS⟩ ∧
    (flyCartesian geoS cartS lookS upS none none camS).1.framesCounter = (camS.numFrames : ℤ) ∧
    (prepareFrame geoS (flyCartesian geoS cartS lookS upS none none camS).1).1.eye = camS.eye := by
  have hN : camS.numFrames ≠ 0 := by
    rw [show camS.numFrames = 50 from rfl]
    norm_num
  have hrayA : geoS.rayIntersectEllipsoid Vec3.zero (flyGroundA geoS camS).normal =
      flyGroundA geoS camS := by
    rw [geoS_groundA_normal, geoS_groundA]
    show (Vec3.mk 1 0 0).scale 3 = _
    ext <;> simp [Vec3.scale]
  have hrayB : geoS.rayIntersectEllipsoid Vec3.zero (flyGroundB geoS cartS).normal =
      flyGroundB geoS cartS := by
    rw [geoS_groundB_normal, geoS_groundB]
    show (Vec3.mk 0 1 0).scale 3 = _
    ext <;> simp [Vec3.scale]
  have heyeA : Vec3.add (flyGroundA geoS camS)
      ((flyGroundA geoS camS).normal.scale camS.lonLat.height) = camS.eye := by
    rw [geoS_groundA_normal, geoS_groundA, show camS.lonLat.height = 1 from rfl,
      show camS.eye = ⟨4, 0, 0⟩ from rfl]
    ext <;> norm_num [Vec3.add, Vec3.scale]
  have heyeB : Vec3.add (flyGroundB geoS cartS)
      ((flyGroundB geoS cartS).normal.scale (flyLonLatB geoS cartS).height) = cartS := by
    rw [geoS_groundB_normal, geoS_groundB, show (flyLonLatB geoS cartS).height = 1 from rfl,
      show cartS = ⟨0, 4, 0⟩ from rfl]
    ext <;> norm_num [Vec3.add, Vec3.scale]
  have hn1 : camS.n.length = 1 := by
    rw [show camS.n = ⟨1, 0, 0⟩ from rfl, Vec3.length_axis_x]
    norm_num
  have hu1 : camS.u.length = 1 := by
    rw [show camS.u = ⟨0, 1, 0⟩ from rfl, Vec3.length_axis_y]
    norm_num
  have hvn : Vec3.cross camS.v camS.n = camS.u := by
    rw [show camS.v = ⟨0, 0, 1⟩ from rfl, show camS.n = ⟨1, 0, 0⟩ from rfl,
      show camS.u = ⟨0, 1, 0⟩ from rfl]
    ext <;> simp [Vec3.cross]
  have hnu : Vec3.cross camS.n camS.u = camS.v := by
    rw [show camS.n = ⟨1, 0, 0⟩ from rfl, show camS.u = ⟨0, 1, 0⟩ from rfl,
      show camS.v = ⟨0, 0, 1⟩ from rfl]
    ext <;> simp [Vec3.cross]
  have hnbraw : flyNbRaw cartS lookS = ⟨0, 4, 0⟩ := by
    rw [flyNbRaw, show cartS = ⟨0, 4, 0⟩ from rfl, show lookS = Vec3.zero from rfl]
    ext <;> simp [Vec3.sub, Vec3.zero]
  have hnb : (flyNbRaw cartS lookS).length ≠ 0 := by
    rw [hnbraw, Vec3.length_axis_y]
    norm_num
  have hub : (Vec3.cross upS (flyNbRaw cartS lookS)).length ≠ 0 := by
    rw [hnbraw, show upS = ⟨0, 0, 1⟩ from rfl,
      show Vec3.cross ⟨0, 0, 1⟩ ⟨0, 4, 0⟩ = ⟨-4, 0, 0⟩ from by
        ext <;> simp [Vec3.cross],
      Vec3.length_axis_x]
    norm_num
  exact c1_plan_endpoints geoS camS cartS lookS upS none none hN hrayA hrayB heyeA heyeB
    hn1 hu1 hvn hnu hnb hub

end Og
